import Mathlib

/-!
Verification of the react-media-recorder capture/record session controller.

The repository has two variants of the same controller:
 * the render-prop component `ReactMediaRecorder` (src/src/index.ts), and
 * the hook `useReactMediaRecorder` (src/unnamed/part_001),
both thin state machines over the host platform's media APIs.

This file shallowly embeds both variants.  Platform objects (streams,
tracks, blobs, the MediaRecorder, the getUserMedia/getDisplayMedia entry
points) are modelled as plain data; JavaScript truthiness of the
`boolean | MediaTrackConstraints` props is modelled explicitly; the
asynchronous callbacks (ondataavailable, onstop) are separate step
functions, exactly as the source installs them.  The WebkitAudio polyfill
imported by the hook is not part of the repository snapshot and is
modelled from the spec (see `WebkitAudio`).
-/

namespace RMR

/-- A `boolean | MediaTrackConstraints` prop value.  A constraints object is
abstracted to its list of keys (the controller never reads the values,
only passes the object through and, at setup, inspects the keys). -/
inductive TrackConstraint where
  | bool (b : Bool)
  | obj (keys : List String)
deriving DecidableEq, Repr

/-- JavaScript truthiness of a `boolean | MediaTrackConstraints` value:
`false` is falsy, `true` is truthy, and any object is truthy. -/
def TrackConstraint.truthy : TrackConstraint → Bool
  | .bool b => b
  | .obj _ => true

/-- An audio track: an identity plus its mutable `enabled` flag. -/
structure AudioTrack where
  id : Nat
  enabled : Bool
deriving DecidableEq, Repr

/-- A MediaStream, abstracted to its audio and video track lists
(video tracks carry only an identity). -/
structure MediaStreamM where
  audioTracks : List AudioTrack
  videoTracks : List Nat
deriving DecidableEq, Repr

/-- A binary data fragment emitted by the recorder (a byte list). -/
def Chunk : Type := List Nat
deriving instance DecidableEq, Repr for Chunk

/-- A Blob: the ordered fragments it was built from plus its content type. -/
structure Blob where
  chunks : List Chunk
  type : String
deriving DecidableEq, Repr

/-- The `BlobPropertyBag` a caller may supply; only its `type` field is
relevant to the controller. -/
structure BlobPropertyBag where
  btype : Option String
deriving DecidableEq, Repr

/-- The platform `URL.createObjectURL`, modelled as a deterministic function of the blob. -/
def createObjectURL (b : Blob) : String :=
  "blob:" ++ toString b.chunks.length

/-- The status enum (`StatusMessages`).  Both variants only ever set the
five values below. -/
inductive Status where
  | idle | acquiring_media | recording | stopping | stopped
deriving DecidableEq, Repr

/-- The state of the underlying host MediaRecorder object. -/
inductive RecorderState where
  | inactive | recording | paused
deriving DecidableEq, Repr

/-- A host MediaRecorder instance: the stream it was constructed over and
its own state. -/
structure Recorder where
  stream : MediaStreamM
  rstate : RecorderState
deriving DecidableEq, Repr

/-- Commands issued to the host recorder object (observable calls). -/
inductive RecCmd where
  | start | stop | pause | resume
deriving DecidableEq, Repr

/-- The `RecorderErrors` string-keyed enum, as an association list from
error-name keys to the stable codes. -/
def RecorderErrors : List (String × String) :=
  [ ("AbortError", "media_aborted")
  , ("NotAllowedError", "permission_denied")
  , ("NotFoundError", "no_specified_media_found")
  , ("NotReadableError", "media_in_use")
  , ("OverconstrainedError", "invalid_media_constraints")
  , ("TypeError", "no_constraints")
  , ("NONE", "")
  , ("NO_RECORDER", "recorder_error") ]

/-- The keys of `RecorderErrors`. -/
def recorderErrorKeys : List String := RecorderErrors.map Prod.fst

/-- Lookup `RecorderErrors[k]` of TypeScript: `some code` when `k` is a key of the
enum, `none` for the `undefined` of a missed lookup. -/
def lookupRecorderError (k : String) : Option String :=
  (RecorderErrors.find? (fun p => p.1 == k)).map Prod.snd

/-- The props shared by both variants (the render callback of the
render-prop variant is kept outside the model). -/
structure Props where
  audio : TrackConstraint := .bool true
  video : TrackConstraint := .bool false
  screen : Bool := false
  blobPropertyBag : Option BlobPropertyBag := none
deriving DecidableEq, Repr

/-- A media request issued to the platform, with the constraints the code
passed.  In the screen path the separate microphone request passes only an
audio constraint; the absent video member is recorded as `.bool false`. -/
inductive MediaRequest where
  | getUserMedia (audio video : TrackConstraint)
  | getDisplayMedia (video : TrackConstraint)
deriving DecidableEq, Repr

/-- The platform's stream-acquisition entry points: each either yields a
stream or throws an error whose `name` is the given string. -/
structure Platform where
  getDisplayMedia : TrackConstraint → Except String MediaStreamM
  getUserMedia : TrackConstraint → TrackConstraint → Except String MediaStreamM

/-- The video constraint passed to `getDisplayMedia` in screen mode:
`video || true` in the source — the caller's value when truthy, else `true`. -/
def displayConstraint (video : TrackConstraint) : TrackConstraint :=
  if video.truthy then video else .bool true

/-- State of the render-prop variant (`ReactMediaRecorder`): the refs and
useState cells of src/src/index.ts.  `error` holds the key stored by
`setError` (which stores `error.name` verbatim on acquisition failure). -/
structure RPState where
  mediaRecorder : Option Recorder := none
  mediaChunks : List Chunk := []
  mediaStream : Option MediaStreamM := none
  previewStream : Option MediaStreamM := none
  status : Status := .idle
  isAudioMuted : Bool := false
  mediaBlobUrl : Option String := none
  mediaBlob : Option Blob := none
  error : String := "NONE"
deriving DecidableEq, Repr

/-- The initial render-prop state. -/
def initialRPState : RPState := {}

/-- The `error` string exposed to the render callback:
`RecorderErrors[error]`, `none` modelling JavaScript `undefined`. -/
def exposedError (errorKey : String) : Option String :=
  lookupRecorderError errorKey

/-- The synchronous part of `getMediaStream`: `setStatus('acquiring_media')`
on entry, before any await. -/
def getMediaStreamBegin (s : RPState) : RPState :=
  { s with status := .acquiring_media }

/-- The rest of `getMediaStream` (render-prop variant): issues the platform
requests of the screen or user path, merges microphone audio into the
screen stream, assigns `mediaStream` (and, on the user path only,
`previewStream` from the video tracks), sets status back to `idle`; on any
thrown error records `error.name` and still sets `idle`.  Also returns the
list of requests issued, in order. -/
def getMediaStreamResolve (props : Props) (plat : Platform) (s : RPState) :
    RPState × List MediaRequest :=
  if props.screen then
    let req0 := MediaRequest.getDisplayMedia (displayConstraint props.video)
    match plat.getDisplayMedia (displayConstraint props.video) with
    | .error e => ({ s with error := e, status := .idle }, [req0])
    | .ok stream =>
      if props.audio.truthy then
        let req1 := MediaRequest.getUserMedia props.audio (.bool false)
        match plat.getUserMedia props.audio (.bool false) with
        | .error e => ({ s with error := e, status := .idle }, [req0, req1])
        | .ok audioStream =>
          let merged : MediaStreamM :=
            { stream with audioTracks := stream.audioTracks ++ audioStream.audioTracks }
          ({ s with mediaStream := some merged, status := .idle }, [req0, req1])
      else
        ({ s with mediaStream := some stream, status := .idle }, [req0])
  else
    let req0 := MediaRequest.getUserMedia props.audio props.video
    match plat.getUserMedia props.audio props.video with
    | .error e => ({ s with error := e, status := .idle }, [req0])
    | .ok stream =>
      ({ s with mediaStream := some stream
              , previewStream := some { audioTracks := [], videoTracks := stream.videoTracks }
              , status := .idle }, [req0])

/-- The whole `getMediaStream` call (render-prop variant). -/
def getMediaStream (props : Props) (plat : Platform) (s : RPState) :
    RPState × List MediaRequest :=
  getMediaStreamResolve props plat (getMediaStreamBegin s)

/-- Operation `startRecording` (render-prop variant): clears the error, lazily
acquires a stream when none exists, then — only when a stream is present —
resets the chunk buffer, clears `mediaBlobUrl`, creates a fresh recorder,
starts it and sets status `recording`. -/
def rpStartRecording (props : Props) (plat : Platform) (s : RPState) :
    RPState × List MediaRequest :=
  let s1 := { s with error := "NONE" }
  let acquired :=
    if s1.mediaStream.isNone then getMediaStream props plat s1 else (s1, [])
  let s2 := acquired.1
  match s2.mediaStream with
  | some stream =>
      ({ s2 with mediaChunks := []
               , mediaBlobUrl := none
               , mediaRecorder := some { stream := stream, rstate := .recording }
               , status := .recording }, acquired.2)
  | none => (s2, acquired.2)

/-- Handler `onRecordingActive` (both variants push into the same-named buffer):
appends the emitted chunk to the chunk buffer. -/
def rpOnRecordingActive (data : Chunk) (s : RPState) : RPState :=
  { s with mediaChunks := s.mediaChunks ++ [data] }

/-- The content type chosen by `onRecordingStop` in both variants:
`blobPropertyBag || video ? { type: 'video/mp4' } : { type: 'audio/wav' }`,
which by JavaScript precedence is `(blobPropertyBag || video) ? … : …`. -/
def chosenBlobType (props : Props) : String :=
  if props.blobPropertyBag.isSome || props.video.truthy
  then "video/mp4" else "audio/wav"

/-- Handler `onRecordingStop` (render-prop variant): concatenates the buffered
chunks into one blob with the chosen content type, creates an object URL,
sets status `stopped`, stores the URL and blob, and returns the list of
`onStop` callback invocations (here exactly one, with the URL). -/
def rpOnRecordingStop (props : Props) (s : RPState) : RPState × List String :=
  let blob : Blob := { chunks := s.mediaChunks, type := chosenBlobType props }
  let url := createObjectURL blob
  ({ s with status := .stopped, mediaBlobUrl := some url, mediaBlob := some blob }, [url])

/-- Operation `muteAudio` (render-prop variant): always records the flag via
`setIsAudioMuted`, and only when a stream is active sets `enabled := !mute`
on each of its audio tracks. -/
def rpMuteAudio (mute : Bool) (s : RPState) : RPState :=
  let s1 := { s with isAudioMuted := mute }
  match s1.mediaStream with
  | some stream =>
      let stream' : MediaStreamM :=
        { stream with audioTracks := stream.audioTracks.map (fun t => { t with enabled := !mute }) }
      { s1 with mediaStream := some stream' }
  | none => s1

/-- Operation `stopRecording` (render-prop variant): when a recorder exists, sets
status `stopping` and issues `stop` to it (its state becomes inactive and
the host will later fire `onstop`); otherwise does nothing.  Returns the
commands issued to the recorder. -/
def rpStopRecording (s : RPState) : RPState × List RecCmd :=
  match s.mediaRecorder with
  | some r =>
      ({ s with status := .stopping
              , mediaRecorder := some { r with rstate := .inactive } }, [.stop])
  | none => (s, [])

/-- The render-prop variant's synchronous setup effect: absence of
`window.MediaRecorder` throws `Unsupported Browser`; in screen mode the
absence of `getDisplayMedia` also throws. -/
def rpSetup (hasMediaRecorder : Bool) (hasGetDisplayMedia : Bool) (props : Props) :
    Except String Unit :=
  if !hasMediaRecorder then .error "Unsupported Browser"
  else if props.screen && !hasGetDisplayMedia then
    .error "no screen capturing support"
  else .ok ()

/-- Modelled from the spec: the `WebkitAudio` polyfill imported by the hook
from `./polyfill`, whose source is not in the repository snapshot.  Per the
spec it is "an alternate in-process audio-only encoder … substituted
transparently for start/stop, producing the same blob/URL/callback
contract but only for audio": `startRecording(cb)` begins capturing
microphone audio and invokes `cb` when recording has begun;
`stopRecording(cb)` invokes `cb` with the encoded audio blob.  The model
keeps the audio captured since the last start. -/
structure WebkitAudio where
  recorded : List Chunk
deriving DecidableEq, Repr

/-- The blob the modelled polyfill hands to the `stopRecording` callback:
the captured audio fragments, audio-typed (the polyfill is audio-only). -/
def WebkitAudio.resultBlob (w : WebkitAudio) : Blob :=
  { chunks := w.recorded, type := "audio/wav" }

/-- State of the hook variant (`useReactMediaRecorder`): the refs and
useState cells of src/unnamed/part_001.  Unlike the render-prop variant it
has no preview ref (the preview is derived at return) but has the
`fallBackAudio` ref. -/
structure HookState where
  mediaRecorder : Option Recorder := none
  fallBackAudio : Option WebkitAudio := none
  mediaChunks : List Chunk := []
  mediaStream : Option MediaStreamM := none
  status : Status := .idle
  isAudioMuted : Bool := false
  mediaBlobUrl : Option String := none
  mediaBlob : Option Blob := none
  error : String := "NONE"
deriving DecidableEq, Repr

/-- The initial hook state. -/
def initialHookState : HookState := {}

/-- The `previewStream` value computed in the hook's returned object:
`mediaStream.current ? new MediaStream(getVideoTracks()) : null`. -/
def hookPreviewStream (s : HookState) : Option MediaStreamM :=
  s.mediaStream.map (fun st => { audioTracks := [], videoTracks := st.videoTracks })

/-- The hook's setup effect: when the native recorder facility is absent
(`isWebkit`), it installs the polyfill into the `fallBackAudio` ref instead
of throwing (nothing initial has been captured). -/
def hookSetup (isWebkit : Bool) (s : HookState) : HookState :=
  if isWebkit then { s with fallBackAudio := some { recorded := [] } } else s

/-- The synchronous part of the hook's `getMediaStream`. -/
def hookGetMediaStreamBegin (s : HookState) : HookState :=
  { s with status := .acquiring_media }

/-- The rest of the hook's `getMediaStream`: identical to the render-prop
variant except that no preview ref is assigned on the user path. -/
def hookGetMediaStreamResolve (props : Props) (plat : Platform) (s : HookState) :
    HookState × List MediaRequest :=
  if props.screen then
    let req0 := MediaRequest.getDisplayMedia (displayConstraint props.video)
    match plat.getDisplayMedia (displayConstraint props.video) with
    | .error e => ({ s with error := e, status := .idle }, [req0])
    | .ok stream =>
      if props.audio.truthy then
        let req1 := MediaRequest.getUserMedia props.audio (.bool false)
        match plat.getUserMedia props.audio (.bool false) with
        | .error e => ({ s with error := e, status := .idle }, [req0, req1])
        | .ok audioStream =>
          let merged : MediaStreamM :=
            { stream with audioTracks := stream.audioTracks ++ audioStream.audioTracks }
          ({ s with mediaStream := some merged, status := .idle }, [req0, req1])
      else
        ({ s with mediaStream := some stream, status := .idle }, [req0])
  else
    let req0 := MediaRequest.getUserMedia props.audio props.video
    match plat.getUserMedia props.audio props.video with
    | .error e => ({ s with error := e, status := .idle }, [req0])
    | .ok stream =>
      ({ s with mediaStream := some stream, status := .idle }, [req0])

/-- The whole `getMediaStream` call (hook variant). -/
def hookGetMediaStream (props : Props) (plat : Platform) (s : HookState) :
    HookState × List MediaRequest :=
  hookGetMediaStreamResolve props plat (hookGetMediaStreamBegin s)

/-- Operation `startRecording` (hook variant).  On the webkit/fallback path: clears
the error and starts the polyfill (its callback sets status `recording`;
`micInput` is the audio the polyfill captures during this recording), or
sets `NotFoundError` when the polyfill ref is empty.  On the native path:
clears the error, lazily acquires a stream, and when one is present
creates and starts a fresh recorder and sets status `recording` — note it
does NOT reset the chunk buffer nor clear `mediaBlobUrl`. -/
def hookStartRecording (isWebkit : Bool) (micInput : List Chunk)
    (props : Props) (plat : Platform) (s : HookState) :
    HookState × List MediaRequest :=
  if isWebkit then
    let s1 := { s with error := "NONE" }
    match s1.fallBackAudio with
    | some _ =>
        ({ s1 with fallBackAudio := some { recorded := micInput }
                 , status := .recording }, [])
    | none => ({ s1 with error := "NotFoundError" }, [])
  else
    let s1 := { s with error := "NONE" }
    let acquired :=
      if s1.mediaStream.isNone then hookGetMediaStream props plat s1 else (s1, [])
    let s2 := acquired.1
    match s2.mediaStream with
    | some stream =>
        ({ s2 with mediaRecorder := some { stream := stream, rstate := .recording }
                 , status := .recording }, acquired.2)
    | none => (s2, acquired.2)

/-- Handler `onRecordingActive` (hook variant): appends the chunk to the buffer. -/
def hookOnRecordingActive (data : Chunk) (s : HookState) : HookState :=
  { s with mediaChunks := s.mediaChunks ++ [data] }

/-- Handler `onRecordingStop` (hook variant): same blob construction, object URL,
status `stopped`, stored blob and URL, and one `onStop` invocation. -/
def hookOnRecordingStop (props : Props) (s : HookState) : HookState × List String :=
  let blob : Blob := { chunks := s.mediaChunks, type := chosenBlobType props }
  let url := createObjectURL blob
  ({ s with status := .stopped, mediaBlobUrl := some url, mediaBlob := some blob }, [url])

/-- Operation `muteAudio` (hook variant): identical to the render-prop variant. -/
def hookMuteAudio (mute : Bool) (s : HookState) : HookState :=
  let s1 := { s with isAudioMuted := mute }
  match s1.mediaStream with
  | some stream =>
      let stream' : MediaStreamM :=
        { stream with audioTracks := stream.audioTracks.map (fun t => { t with enabled := !mute }) }
      { s1 with mediaStream := some stream' }
  | none => s1

/-- Operation `pauseRecording` (hook variant): issues `pause` to the recorder only
when one exists and reports state `recording`; otherwise does nothing. -/
def hookPauseRecording (s : HookState) : HookState × List RecCmd :=
  match s.mediaRecorder with
  | some r =>
      if r.rstate = .recording then
        ({ s with mediaRecorder := some { r with rstate := .paused } }, [.pause])
      else (s, [])
  | none => (s, [])

/-- Operation `resumeRecording` (hook variant): issues `resume` only when the
recorder exists and reports state `paused`; otherwise does nothing. -/
def hookResumeRecording (s : HookState) : HookState × List RecCmd :=
  match s.mediaRecorder with
  | some r =>
      if r.rstate = .paused then
        ({ s with mediaRecorder := some { r with rstate := .recording } }, [.resume])
      else (s, [])
  | none => (s, [])

/-- Operation `stopRecording` (hook variant).  Webkit path: when the polyfill ref is
set, its `stopRecording` callback receives the encoded blob, creates the
URL, sets status `stopped`, stores blob and URL and calls `onStop`; when
the ref is empty nothing happens.  Native path: when a recorder exists,
sets status `stopping` and issues `stop`; otherwise nothing.  Returns the
`onStop` invocations. -/
def hookStopRecording (isWebkit : Bool) (s : HookState) : HookState × List String :=
  if isWebkit then
    match s.fallBackAudio with
    | some w =>
        let blob := w.resultBlob
        let url := createObjectURL blob
        ({ s with status := .stopped, mediaBlob := some blob, mediaBlobUrl := some url }, [url])
    | none => (s, [])
  else
    match s.mediaRecorder with
    | some r =>
        ({ s with status := .stopping
                , mediaRecorder := some { r with rstate := .inactive } }, [])
    | none => (s, [])

/-! Spec-side vocabulary for the blob-type claim: the claim speaks of the
blob's content type being "video" or "audio", and of a "video-capable"
blobPropertyBag.  These definitions follow the claim's words, to be
compared against the code's `chosenBlobType`. -/

/-- A content type in the `video/…` family (its first five characters are
`video`). -/
def isVideoType (t : String) : Bool := t.toList.take 5 == "video".toList

/-- A content type in the `audio/…` family. -/
def isAudioType (t : String) : Bool := t.toList.take 5 == "audio".toList

/-- From the claim's words: a supplied blobPropertyBag is video-capable
when its `type` member is a video content type. -/
def bagVideoCapable (p : Props) : Bool :=
  match p.blobPropertyBag with
  | some bag =>
    match bag.btype with
    | some ty => isVideoType ty
    | none => false
  | none => false

/-- Props for the C1 counterexample: no video requested, and a supplied
blobPropertyBag that is not video-capable (`type: 'audio/ogg'`). -/
def c1Props : Props :=
  { video := .bool false, blobPropertyBag := some { btype := some "audio/ogg" } }

/-- A one-chunk stopped state for the C1 counterexample. -/
def c1State : RPState := { initialRPState with mediaChunks := [[1]] }

end RMR

namespace RMR

/-- C1 counterexample: with no video requested and a non-video-capable
blobPropertyBag (`type: 'audio/ogg'`), `onRecordingStop` still produces a
`video/mp4` (video, not audio) blob, because the source's
`blobPropertyBag || video ? {type:'video/mp4'} : {type:'audio/wav'}`
parses as `(blobPropertyBag || video) ? … : …`, so any supplied bag — even
an audio-only one — selects the video type.  This refutes the claim that
the type is video exactly when video was requested or a video-capable bag
was supplied, and audio otherwise. -/
theorem c1_counterexample :
    (rpOnRecordingStop c1Props c1State).1.mediaBlob
      = some { chunks := [[1]], type := "video/mp4" }
    ∧ isVideoType "video/mp4" = true
    ∧ isAudioType "video/mp4" = false
    ∧ c1Props.video.truthy = false
    ∧ bagVideoCapable c1Props = false := by
  decide

/-- C1 (amended): after a completed stop, in both variants the produced
blob holds exactly the buffered chunks and its content type is `video/mp4`
exactly when video was requested or ANY blobPropertyBag was supplied (the
bag's own content is ignored), and `audio/wav` otherwise; in particular,
with no video requested and no bag supplied the type is audio. -/
theorem c1_blob_type (props : Props) (s : RPState) (t : HookState) :
    (rpOnRecordingStop props s).1.mediaBlob
      = some { chunks := s.mediaChunks, type := chosenBlobType props }
    ∧ (hookOnRecordingStop props t).1.mediaBlob
      = some { chunks := t.mediaChunks, type := chosenBlobType props }
    ∧ (chosenBlobType props = "video/mp4"
        ↔ (props.blobPropertyBag.isSome = true ∨ props.video.truthy = true))
    ∧ (chosenBlobType props = "audio/wav"
        ↔ (props.blobPropertyBag = none ∧ props.video.truthy = false)) := by
  have hne : ("video/mp4" : String) ≠ "audio/wav" := by decide
  refine ⟨rfl, rfl, ?_, ?_⟩ <;>
  · cases hbag : props.blobPropertyBag <;>
      by_cases hv : props.video.truthy <;>
        simp [chosenBlobType, hbag, hv, hne, hne.symm]

/-- C1 witness: the amended theorem at the default props (audio only) and
empty buffers — the blob is audio-typed. -/
theorem c1_blob_type_witness :
    chosenBlobType {} = "audio/wav" ∧ ({} : Props).blobPropertyBag = none := by
  have h := c1_blob_type {} initialRPState initialHookState
  exact ⟨h.2.2.2.mpr (by decide), by decide⟩

/-- An audio-only stream used by the concrete runs. -/
def micStream : MediaStreamM :=
  { audioTracks := [{ id := 0, enabled := true }], videoTracks := [] }

/-- A platform whose both acquisition entry points succeed with
`micStream`. -/
def okPlat : Platform :=
  { getDisplayMedia := fun _ => .ok micStream
  , getUserMedia := fun _ _ => .ok micStream }

/-- Two full hook-variant recording cycles on the native path, starting
from a state that already holds a stream: start, one chunk `[1]`, stop and
its `onstop`; then start again, one chunk `[2]`, stop and its `onstop`.
The value is the state after the second cycle's `onRecordingStop`. -/
def c2Run : HookState :=
  let p : Props := {}
  let s0 : HookState := { mediaStream := some micStream }
  let s1 := (hookStartRecording false [] p okPlat s0).1
  let s2 := hookOnRecordingActive [1] s1
  let s3 := (hookStopRecording false s2).1
  let s4 := (hookOnRecordingStop p s3).1
  let s5 := (hookStartRecording false [] p okPlat s4).1
  let s6 := hookOnRecordingActive [2] s5
  let s7 := (hookStopRecording false s6).1
  (hookOnRecordingStop p s7).1

/-- C2 counterexample: in the hook variant `startRecording` never resets
the chunk buffer (and never clears `mediaBlobUrl`), so the second cycle's
blob still contains the first cycle's chunk `[1]` — it is built from
`[[1], [2]]`, not from `[[2]]` alone.  This refutes the claim for the
hook variant ("in either variant"). -/
theorem c2_counterexample :
    c2Run.mediaBlob.map Blob.chunks = some [[1], [2]]
    ∧ (some [[1], [2]] : Option (List Chunk)) ≠ some [[2]]
    ∧ ([1] : Chunk) ∈ ([[1], [2]] : List Chunk) := by
  decide

/-- Acquisition in the hook variant never touches the chunk buffer or the
stored blob URL. -/
theorem hookResolve_frame (props : Props) (plat : Platform) (t : HookState) :
    (hookGetMediaStreamResolve props plat t).1.mediaChunks = t.mediaChunks
    ∧ (hookGetMediaStreamResolve props plat t).1.mediaBlobUrl = t.mediaBlobUrl := by
  unfold hookGetMediaStreamResolve
  repeat' split
  all_goals exact ⟨rfl, rfl⟩

/-- C2 (amended): the render-prop variant's `startRecording` does reset
the chunk buffer to empty and clear `mediaBlobUrl` whenever recording
actually begins (a stream is present after the lazy acquisition); the
hook variant's `startRecording`, in both its webkit and native paths,
leaves the chunk buffer and `mediaBlobUrl` exactly as they were, so only
the render-prop variant guarantees a second cycle's blob holds only that
cycle's chunks. -/
theorem c2_start_reset (props : Props) (plat : Platform) (s : RPState)
    (w : Bool) (mic : List Chunk) (t : HookState) :
    ((rpStartRecording props plat s).1.mediaStream.isSome = true →
       (rpStartRecording props plat s).1.mediaChunks = []
       ∧ (rpStartRecording props plat s).1.mediaBlobUrl = none)
    ∧ (hookStartRecording w mic props plat t).1.mediaChunks = t.mediaChunks
    ∧ (hookStartRecording w mic props plat t).1.mediaBlobUrl = t.mediaBlobUrl := by
  constructor
  · intro h
    unfold rpStartRecording at *
    dsimp only at *
    split at h
    · exact ⟨rfl, rfl⟩
    · simp_all
  · have h1 := hookResolve_frame props plat
      (hookGetMediaStreamBegin { t with error := "NONE" })
    unfold hookStartRecording hookGetMediaStream
    dsimp only
    repeat' split
    all_goals simp_all [hookGetMediaStreamBegin]

/-- C2 witness: the amended theorem at a concrete one-chunk state: the
hook start leaves the chunk `[7]` in place. -/
theorem c2_start_reset_witness :
    (hookStartRecording false [] {} okPlat
        { mediaStream := some micStream, mediaChunks := [[7]] }).1.mediaChunks = [[7]] :=
  (c2_start_reset {} okPlat initialRPState false []
      { mediaStream := some micStream, mediaChunks := [[7]] }).2.1

/-- Acquisition always ends with status `idle`, in both variants. -/
theorem resolve_status_idle (props : Props) (plat : Platform) (s : RPState)
    (t : HookState) :
    (getMediaStreamResolve props plat s).1.status = .idle
    ∧ (hookGetMediaStreamResolve props plat t).1.status = .idle := by
  constructor
  · unfold getMediaStreamResolve
    repeat' split
    all_goals rfl
  · unfold hookGetMediaStreamResolve
    repeat' split
    all_goals rfl

/-- C3: every acquisition sets status `acquiring_media` on entry (before
any await) and ends at `idle` whether it succeeds or fails; a failure
whose error name is `NotAllowedError` stores that name, which the exposed
error maps to `permission_denied`; and a subsequent `startRecording` (in
either variant) begins by resetting the error key to `NONE`, so when a
stream is already present (a successful start with no lazy acquisition)
the error ends as `NONE`, exposed as the empty code. -/
theorem c3_acquisition (props : Props) (plat : Platform) (s s2 : RPState)
    (t t2 : HookState) (mic : List Chunk) :
    (getMediaStreamBegin s).status = .acquiring_media
    ∧ (hookGetMediaStreamBegin t).status = .acquiring_media
    ∧ (getMediaStreamResolve props plat s2).1.status = .idle
    ∧ (hookGetMediaStreamResolve props plat t2).1.status = .idle
    ∧ (props.screen = false →
        plat.getUserMedia props.audio props.video = .error "NotAllowedError" →
          (getMediaStreamResolve props plat s2).1.error = "NotAllowedError"
          ∧ exposedError (getMediaStreamResolve props plat s2).1.error
              = some "permission_denied")
    ∧ (s.mediaStream.isSome = true →
        (rpStartRecording props plat s).1.error = "NONE"
        ∧ exposedError (rpStartRecording props plat s).1.error = some "")
    ∧ (t.mediaStream.isSome = true →
        (hookStartRecording false mic props plat t).1.error = "NONE"
        ∧ exposedError (hookStartRecording false mic props plat t).1.error
            = some "") := by
  have hNA : exposedError "NotAllowedError" = some "permission_denied" := by decide
  have hNONE : exposedError "NONE" = some "" := by decide
  refine ⟨rfl, rfl, (resolve_status_idle props plat s2 t2).1,
    (resolve_status_idle props plat s2 t2).2, ?_, ?_, ?_⟩
  · intro hsc herr
    have h1 : (getMediaStreamResolve props plat s2).1.error = "NotAllowedError" := by
      simp [getMediaStreamResolve, hsc, herr]
    exact ⟨h1, by rw [h1]; exact hNA⟩
  · intro h
    obtain ⟨st, hst⟩ := Option.isSome_iff_exists.mp h
    have h1 : (rpStartRecording props plat s).1.error = "NONE" := by
      simp [rpStartRecording, hst]
    exact ⟨h1, by rw [h1]; exact hNONE⟩
  · intro h
    obtain ⟨st, hst⟩ := Option.isSome_iff_exists.mp h
    have h1 : (hookStartRecording false mic props plat t).1.error = "NONE" := by
      simp [hookStartRecording, hst]
    exact ⟨h1, by rw [h1]; exact hNONE⟩

/-- C3 witness: a concrete permission-denied acquisition followed by a
successful start.  The platform rejects every request with
`NotAllowedError`; acquisition ends idle with the permission-denied code,
and a start from a state that already has a stream ends with the error
cleared. -/
theorem c3_acquisition_witness :
    (getMediaStreamResolve {} ⟨fun _ => .error "NotAllowedError",
        fun _ _ => .error "NotAllowedError"⟩ initialRPState).1.status = Status.idle
    ∧ exposedError (getMediaStreamResolve {} ⟨fun _ => .error "NotAllowedError",
        fun _ _ => .error "NotAllowedError"⟩ initialRPState).1.error
        = some "permission_denied"
    ∧ (rpStartRecording {} okPlat { mediaStream := some micStream }).1.error = "NONE" := by
  have h := c3_acquisition {} ⟨fun _ => .error "NotAllowedError",
    fun _ _ => .error "NotAllowedError"⟩ { mediaStream := some micStream }
    initialRPState initialHookState initialHookState []
  have h2 := c3_acquisition {} okPlat { mediaStream := some micStream }
    initialRPState initialHookState initialHookState []
  exact ⟨h.2.2.1, (h.2.2.2.2.1 rfl rfl).2, (h2.2.2.2.2.2.1 rfl).1⟩

/-- C4: with no active recorder, `stopRecording` is a no-op in every
variant and path — the whole state (in particular status and error) is
unchanged and nothing is invoked: the render-prop variant issues no
recorder command, and the hook variant performs no `onStop` call, on the
native path when the recorder ref is empty and on the webkit path when
the polyfill ref is empty. -/
theorem c4_stop_noop (s : RPState) (t : HookState) :
    (s.mediaRecorder = none → rpStopRecording s = (s, []))
    ∧ (t.mediaRecorder = none → hookStopRecording false t = (t, []))
    ∧ (t.fallBackAudio = none → hookStopRecording true t = (t, [])) := by
  refine ⟨fun h => ?_, fun h => ?_, fun h => ?_⟩
  · simp [rpStopRecording, h]
  · simp [hookStopRecording, h]
  · simp [hookStopRecording, h]

/-- C4 witness: stopping from the initial states (no recorder, no
polyfill) changes nothing. -/
theorem c4_stop_noop_witness :
    rpStopRecording initialRPState = (initialRPState, [])
    ∧ hookStopRecording false initialHookState = (initialHookState, [])
    ∧ hookStopRecording true initialHookState = (initialHookState, []) :=
  ⟨(c4_stop_noop initialRPState initialHookState).1 rfl,
   (c4_stop_noop initialRPState initialHookState).2.1 rfl,
   (c4_stop_noop initialRPState initialHookState).2.2 rfl⟩

/-- C5 counterexample: calling `muteAudio(true)` with no active stream is
not a no-op — the source calls `setIsAudioMuted(mute)` before checking the
stream ref, so the exposed `isAudioMuted` flag flips from `false` to
`true` even though no stream exists.  This refutes the claim that without
an active stream nothing observable (including the exposed mute flag)
changes. -/
theorem c5_counterexample :
    initialRPState.mediaStream = none
    ∧ initialRPState.isAudioMuted = false
    ∧ (rpMuteAudio true initialRPState).isAudioMuted = true
    ∧ initialHookState.mediaStream = none
    ∧ initialHookState.isAudioMuted = false
    ∧ (hookMuteAudio true initialHookState).isAudioMuted = true := by
  decide

/-- C5 (amended): `muteAudio(mute)` always records `mute` in the exposed
`isAudioMuted` flag; when a stream is active it sets `enabled := !mute` on
every audio track, preserving the track identities and the video tracks;
when no stream is active nothing else changes (the flag update is the only
observable effect).  Stated for the render-prop variant and the hook
variant alike; `muteAudio` and `unMuteAudio` are the `mute := true` and
`mute := false` instances. -/
theorem c5_mute (mute : Bool) (s : RPState) (t : HookState) :
    ((rpMuteAudio mute s).isAudioMuted = mute)
    ∧ (s.mediaStream = none → rpMuteAudio mute s = { s with isAudioMuted := mute })
    ∧ (∀ st, s.mediaStream = some st →
        ∃ st', (rpMuteAudio mute s).mediaStream = some st'
          ∧ st'.videoTracks = st.videoTracks
          ∧ st'.audioTracks.map AudioTrack.id = st.audioTracks.map AudioTrack.id
          ∧ ∀ tr ∈ st'.audioTracks, tr.enabled = !mute)
    ∧ ((rpMuteAudio mute s).status = s.status ∧ (rpMuteAudio mute s).error = s.error)
    ∧ ((hookMuteAudio mute t).isAudioMuted = mute)
    ∧ (t.mediaStream = none → hookMuteAudio mute t = { t with isAudioMuted := mute })
    ∧ (∀ st, t.mediaStream = some st →
        ∃ st', (hookMuteAudio mute t).mediaStream = some st'
          ∧ st'.videoTracks = st.videoTracks
          ∧ st'.audioTracks.map AudioTrack.id = st.audioTracks.map AudioTrack.id
          ∧ ∀ tr ∈ st'.audioTracks, tr.enabled = !mute) := by
  refine ⟨?_, fun h => ?_, fun st hst => ?_, ⟨?_, ?_⟩, ?_, fun h => ?_, fun st hst => ?_⟩
  · cases hm : s.mediaStream <;> simp [rpMuteAudio, hm]
  · simp [rpMuteAudio, h]
  · refine ⟨{ audioTracks := st.audioTracks.map (fun tr => { tr with enabled := !mute })
            , videoTracks := st.videoTracks }, ?_, rfl, ?_, ?_⟩
    · simp [rpMuteAudio, hst]
    · simp only [List.map_map]
      rfl
    · intro tr htr
      simp only [List.mem_map] at htr
      obtain ⟨a, _, ha⟩ := htr
      rw [← ha]
  · cases hm : s.mediaStream <;> simp [rpMuteAudio, hm]
  · cases hm : s.mediaStream <;> simp [rpMuteAudio, hm]
  · cases hm : t.mediaStream <;> simp [hookMuteAudio, hm]
  · simp [hookMuteAudio, h]
  · refine ⟨{ audioTracks := st.audioTracks.map (fun tr => { tr with enabled := !mute })
            , videoTracks := st.videoTracks }, ?_, rfl, ?_, ?_⟩
    · simp [hookMuteAudio, hst]
    · simp only [List.map_map]
      rfl
    · intro tr htr
      simp only [List.mem_map] at htr
      obtain ⟨a, _, ha⟩ := htr
      rw [← ha]

/-- C5 witness: muting with an active one-track stream: the track becomes
disabled and the flag is set; and the no-stream case from the initial
state only sets the flag. -/
theorem c5_mute_witness :
    (rpMuteAudio true { initialRPState with mediaStream := some micStream }).isAudioMuted
      = true
    ∧ rpMuteAudio true initialRPState = { initialRPState with isAudioMuted := true } :=
  ⟨(c5_mute true { initialRPState with mediaStream := some micStream }
      initialHookState).1,
   (c5_mute true initialRPState initialHookState).2.1 rfl⟩

/-- C6: when the host recording facility is absent, the render-prop
variant raises `Unsupported Browser` synchronously at setup, while the
hook variant installs the fallback encoder instead, and a start/stop
cycle on the fallback path still records status `recording`, then ends
`stopped` with a stored blob, a stored URL, and exactly one completion
callback invocation carrying that URL. -/
theorem c6_fallback (props : Props) (hg : Bool) (t : HookState)
    (mic : List Chunk) (plat : Platform) :
    rpSetup false hg props = .error "Unsupported Browser"
    ∧ (hookSetup true t).fallBackAudio.isSome = true
    ∧ ((hookStartRecording true mic props plat (hookSetup true t)).1.status
        = .recording)
    ∧ (∃ blob url,
        (hookStopRecording true
          (hookStartRecording true mic props plat (hookSetup true t)).1).1.mediaBlob
          = some blob
        ∧ isAudioType blob.type = true
        ∧ (hookStopRecording true
            (hookStartRecording true mic props plat (hookSetup true t)).1).1.mediaBlobUrl
            = some url
        ∧ (hookStopRecording true
            (hookStartRecording true mic props plat (hookSetup true t)).1).2 = [url]
        ∧ (hookStopRecording true
            (hookStartRecording true mic props plat (hookSetup true t)).1).1.status
            = .stopped) := by
  refine ⟨rfl, by simp [hookSetup], ?_, ?_⟩
  · simp [hookSetup, hookStartRecording]
  · refine ⟨{ chunks := mic, type := "audio/wav" },
      createObjectURL { chunks := mic, type := "audio/wav" }, ?_, rfl, ?_, ?_, ?_⟩ <;>
    simp [hookSetup, hookStartRecording, hookStopRecording, WebkitAudio.resultBlob]

/-- C6 witness: the cycle at concrete inputs — two captured fragments
yield an audio blob of those fragments and one callback call. -/
theorem c6_fallback_witness :
    rpSetup false true {} = .error "Unsupported Browser"
    ∧ (hookStartRecording true [[5], [6]] {} okPlat
        (hookSetup true initialHookState)).1.status = Status.recording := by
  have h := c6_fallback {} true initialHookState [[5], [6]] okPlat
  exact ⟨h.1, h.2.2.1⟩

/-- C7: the hook's `pauseRecording` issues the recorder `pause` command
exactly when a recorder exists and reports state `recording`, and
`resumeRecording` issues `resume` exactly when one exists and reports
state `paused`; in every other state each call changes nothing and issues
nothing. -/
theorem c7_pause_resume (s : HookState) :
    ((hookPauseRecording s).2 = [RecCmd.pause]
      ↔ ∃ r, s.mediaRecorder = some r ∧ r.rstate = .recording)
    ∧ ((¬ ∃ r, s.mediaRecorder = some r ∧ r.rstate = .recording) →
        hookPauseRecording s = (s, []))
    ∧ ((hookResumeRecording s).2 = [RecCmd.resume]
      ↔ ∃ r, s.mediaRecorder = some r ∧ r.rstate = .paused)
    ∧ ((¬ ∃ r, s.mediaRecorder = some r ∧ r.rstate = .paused) →
        hookResumeRecording s = (s, [])) := by
  refine ⟨?_, fun h => ?_, ?_, fun h => ?_⟩
  · cases hm : s.mediaRecorder with
    | none => simp [hookPauseRecording, hm]
    | some r =>
        by_cases hr : r.rstate = .recording <;>
          simp [hookPauseRecording, hm, hr]
  · cases hm : s.mediaRecorder with
    | none => simp [hookPauseRecording, hm]
    | some r =>
        have hr : ¬ r.rstate = .recording := fun hc => h ⟨r, hm, hc⟩
        simp [hookPauseRecording, hm, hr]
  · cases hm : s.mediaRecorder with
    | none => simp [hookResumeRecording, hm]
    | some r =>
        by_cases hr : r.rstate = .paused <;>
          simp [hookResumeRecording, hm, hr]
  · cases hm : s.mediaRecorder with
    | none => simp [hookResumeRecording, hm]
    | some r =>
        have hr : ¬ r.rstate = .paused := fun hc => h ⟨r, hm, hc⟩
        simp [hookResumeRecording, hm, hr]

/-- A recorder over the microphone stream that reports state recording. -/
def recRecording : Recorder := { stream := micStream, rstate := .recording }

/-- C7 witness: a recording recorder is paused (command issued); pausing
with no recorder does nothing. -/
theorem c7_pause_resume_witness :
    (hookPauseRecording { mediaRecorder := some recRecording }).2 = [RecCmd.pause]
    ∧ hookPauseRecording initialHookState = (initialHookState, []) := by
  have h1 := (c7_pause_resume { mediaRecorder := some recRecording }).1
  have h2 := (c7_pause_resume initialHookState).2.1
  exact ⟨h1.mpr ⟨recRecording, rfl, rfl⟩, h2 (by simp [initialHookState])⟩

/-- The six platform error names the claim enumerates. -/
def enumeratedErrorNames : List String :=
  [ "AbortError", "NotAllowedError", "NotFoundError"
  , "NotReadableError", "OverconstrainedError", "TypeError" ]

/-- A platform every request of which throws an error named `NONE`. -/
def c8Plat : Platform :=
  { getDisplayMedia := fun _ => .error "NONE"
  , getUserMedia := fun _ _ => .error "NONE" }

/-- C8 counterexample: the claim quantifies over every failure name
outside its six enumerated keys, but the lookup table also has the keys
`NONE` and `NO_RECORDER`.  An acquisition failure whose error name is
`NONE` is outside the six, yet the lookup does not miss: the exposed
string is the empty/none code `""` — not `undefined` — contradicting both
"the result of a missed table lookup (undefined)" and "not the
empty/none code". -/
theorem c8_counterexample :
    "NONE" ∉ enumeratedErrorNames
    ∧ (getMediaStreamResolve {} c8Plat initialRPState).1.error = "NONE"
    ∧ exposedError (getMediaStreamResolve {} c8Plat initialRPState).1.error
        = some "" := by
  decide

/-- C8 (amended): if an acquisition fails with an error name outside the
KEYS OF THE LOOKUP TABLE (the six enumerated platform names plus `NONE`
and `NO_RECORDER`), the exposed error string is the `undefined` of a
missed lookup — in particular not any enumerated stable code and not the
empty code. -/
theorem c8_unknown_error (props : Props) (plat : Platform) (s : RPState)
    (t : HookState) (name : String) :
    props.screen = false →
    plat.getUserMedia props.audio props.video = .error name →
    name ∉ recorderErrorKeys →
      (exposedError (getMediaStreamResolve props plat s).1.error = none
      ∧ exposedError (hookGetMediaStreamResolve props plat t).1.error = none
      ∧ ∀ code : String,
          exposedError (getMediaStreamResolve props plat s).1.error ≠ some code) := by
  intro hsc herr hmem
  have hname : ∀ u : RPState, u.error = name →
      exposedError u.error = none := by
    intro u hu
    rw [hu]
    unfold exposedError lookupRecorderError
    rw [List.find?_eq_none.mpr]
    · rfl
    · intro p hp hbeq
      apply hmem
      have : p.1 = name := by
        simpa using hbeq
      rw [← this]
      exact List.mem_map_of_mem Prod.fst hp
  have h1 : (getMediaStreamResolve props plat s).1.error = name := by
    simp [getMediaStreamResolve, hsc, herr]
  have h2 : (hookGetMediaStreamResolve props plat t).1.error = name := by
    simp [hookGetMediaStreamResolve, hsc, herr]
  refine ⟨hname _ h1, ?_, ?_⟩
  · rw [h2]
    have := hname { initialRPState with error := name } rfl
    simpa using this
  · intro code
    rw [hname _ h1]
    exact fun hc => Option.noConfusion hc

/-- C8 witness: a failure named `UnknownPlatformError` (outside the whole
table) exposes `undefined`. -/
theorem c8_unknown_error_witness :
    exposedError (getMediaStreamResolve {}
      ⟨fun _ => .error "UnknownPlatformError", fun _ _ => .error "UnknownPlatformError"⟩
      initialRPState).1.error = none := by
  have h := c8_unknown_error {}
    ⟨fun _ => .error "UnknownPlatformError", fun _ _ => .error "UnknownPlatformError"⟩
    initialRPState initialHookState "UnknownPlatformError" rfl rfl (by decide)
  exact h.1

/-- C9: in screen-capture mode the display-media request is made with the
constraint `video || true`: the caller's video value when truthy, the
boolean `true` otherwise — so the constraint actually sent is truthy for
every caller-supplied video value, video tracks being requested even for
`video: false`.  Both variants issue exactly this request. -/
theorem c9_display_constraint (props : Props) (plat : Platform) (s : RPState)
    (t : HookState) (v : TrackConstraint) :
    ((displayConstraint v).truthy = true)
    ∧ (displayConstraint (.bool false) = .bool true)
    ∧ (props.screen = true →
        MediaRequest.getDisplayMedia (displayConstraint props.video)
          ∈ (getMediaStreamResolve props plat s).2)
    ∧ (props.screen = true →
        MediaRequest.getDisplayMedia (displayConstraint props.video)
          ∈ (hookGetMediaStreamResolve props plat t).2) := by
  refine ⟨?_, rfl, fun hsc => ?_, fun hsc => ?_⟩
  · unfold displayConstraint
    split
    · next h => exact h
    · rfl
  · unfold getMediaStreamResolve
    rw [hsc]
    simp only [if_true]
    repeat' split
    all_goals simp
  · unfold hookGetMediaStreamResolve
    rw [hsc]
    simp only [if_true]
    repeat' split
    all_goals simp

/-- C9 witness: with `screen: true` and `video: false`, the issued display
request carries the truthy constraint `true`. -/
theorem c9_display_constraint_witness :
    MediaRequest.getDisplayMedia (TrackConstraint.bool true)
      ∈ (getMediaStreamResolve { screen := true } okPlat initialRPState).2 := by
  have h := (c9_display_constraint { screen := true } okPlat initialRPState
    initialHookState (.bool false)).2.2.1 rfl
  simpa using h

/-- C10: the render-prop variant assigns its preview ref only on the
non-screen acquisition path (as the video tracks of the user-media
stream); every screen-mode acquisition leaves the preview ref untouched,
so from the initial state it stays `null` after any screen acquisition. -/
theorem c10_preview (props : Props) (plat : Platform) (s : RPState) :
    (props.screen = true →
      (getMediaStreamResolve props plat s).1.previewStream = s.previewStream)
    ∧ (props.screen = true →
      (getMediaStream props plat initialRPState).1.previewStream = none)
    ∧ (props.screen = false → ∀ st,
        plat.getUserMedia props.audio props.video = .ok st →
          (getMediaStreamResolve props plat s).1.previewStream
            = some { audioTracks := [], videoTracks := st.videoTracks }) := by
  have hframe : ∀ u : RPState, props.screen = true →
      (getMediaStreamResolve props plat u).1.previewStream = u.previewStream := by
    intro u hsc
    unfold getMediaStreamResolve
    rw [hsc]
    simp only [if_true]
    repeat' split
    all_goals rfl
  refine ⟨hframe s, fun hsc => ?_, fun hsc st hst => ?_⟩
  · unfold getMediaStream
    rw [hframe _ hsc]
    rfl
  · simp [getMediaStreamResolve, hsc, hst]

/-- C10 witness: a screen acquisition from the initial state leaves the
preview `null`, while a user-media acquisition sets it to the stream's
video tracks. -/
theorem c10_preview_witness :
    (getMediaStream { screen := true } okPlat initialRPState).1.previewStream = none
    ∧ (getMediaStreamResolve {} okPlat initialRPState).1.previewStream
        = some { audioTracks := [], videoTracks := micStream.videoTracks } := by
  have h := c10_preview { screen := true } okPlat initialRPState
  have h2 := c10_preview {} okPlat initialRPState
  exact ⟨h.2.1 rfl, h2.2.2 rfl micStream rfl⟩
